import Mathlib

/-!
Shallow embedding of the scene-graph node module (`src/scene/node.rs`) and the
editor scene-gizmo click handler (`editor/src/scene_viewer/gizmo.rs`) of the
Fyrox repository, together with proofs of the specification claims.

Translation conventions:
* Rust `&mut self` visiting methods are translated to pure functions: a writing
  visit returns the produced stream region, a reading visit takes the region and
  the current value and returns the updated value (or an error).
* Machine floats that are only stored, copied and compared (never rounded) are
  modelled as rationals; `f32::MAX` is the exact rational value of that float.
* `Result<T, E>` becomes `Except E T`; the `?` operator becomes monadic bind.
-/

namespace Fyrox

/-- Modelled from the spec: the handle-pool `Handle<T>` type (the pool module is
not under `src/`): an (index, generation) pair, equal iff both fields match,
with a "none" sentinel whose index is the invalid index. The phantom type
parameter of the Rust type is dropped; node handles and body handles share this
type. -/
structure Handle where
  index : Nat
  generation : Nat
deriving DecidableEq

/-- Modelled from the spec: the "none" sentinel handle (index = invalid). -/
def Handle.none : Handle := { index := 4294967295, generation := 0 }

/-- Modelled from the spec: a 3D vector, components as exact scalars. -/
structure Vec3 where
  x : ℚ
  y : ℚ
  z : ℚ
deriving DecidableEq

def Vec3.zero : Vec3 := ⟨0, 0, 0⟩

def Vec3.one : Vec3 := ⟨1, 1, 1⟩

/-- Modelled from the spec: a unit quaternion used for rotations. -/
structure Quat where
  x : ℚ
  y : ℚ
  z : ℚ
  w : ℚ
deriving DecidableEq

def Quat.identity : Quat := ⟨0, 0, 0, 1⟩

/-- Modelled from the spec: a 4×4 matrix (`Mat4`), entries as exact scalars in
row-major order. The node module only constructs the identity, stores, copies
and serializes matrices, so no matrix arithmetic is needed. -/
structure Mat4 where
  entries : List ℚ
deriving DecidableEq

def Mat4.identity : Mat4 :=
  ⟨[1, 0, 0, 0,  0, 1, 0, 0,  0, 0, 1, 0,  0, 0, 0, 1]⟩

/-- Modelled from the spec: `Transform` (`transform.rs` is not under `src/`):
position (3D vector), rotation (unit quaternion), scale (3D vector), and a
lazily-cached local matrix; `cacheValid` records whether the cached matrix is
up to date with the authored fields. The cached matrix value itself is derived
state and is not modelled; only its validity flag is, because cloning must
produce a fresh (invalid) cache per the spec. -/
structure Transform where
  position : Vec3
  rotation : Quat
  scale : Vec3
  cacheValid : Bool
deriving DecidableEq

/-- Modelled from the spec: the identity transform produced by
`Transform::identity()`: zero position, identity rotation, unit scale. -/
def Transform.identity : Transform :=
  { position := Vec3.zero, rotation := Quat.identity, scale := Vec3.one,
    cacheValid := true }

/-- Modelled from the spec: cloning a `Transform` copies the authored fields and
invalidates the cache (never shares the cache). -/
def Transform.clone (t : Transform) : Transform :=
  { t with cacheValid := false }

/-- Modelled from the spec: a shared reference (`Arc<Mutex<Model>>`) to an
external model resource template. Only reference identity matters to the node
module, so the reference is modelled by an identity tag; cloning the `Arc`
yields the same reference value. -/
structure ModelRef where
  id : Nat
deriving DecidableEq

/-- Modelled from the spec: the variant payload of the Light node kind
(`light.rs` is not under `src/`); the node module treats it as opaque data with
a `Default` value, so it is modelled as an opaque payload. -/
structure Light where
  data : Nat
deriving DecidableEq

def Light.default : Light := ⟨0⟩

/-- Modelled from the spec: the variant payload of the Camera node kind
(`camera.rs` is not under `src/`), opaque to the node module. -/
structure Camera where
  data : Nat
deriving DecidableEq

def Camera.default : Camera := ⟨0⟩

/-- Modelled from the spec: the variant payload of the Mesh node kind
(`mesh.rs` is not under `src/`), opaque to the node module. -/
structure Mesh where
  data : Nat
deriving DecidableEq

def Mesh.default : Mesh := ⟨0⟩

/-- Modelled from the spec: the variant payload of the ParticleSystem node kind
(`particle_system.rs` is not under `src/`), opaque to the node module. -/
structure ParticleSystem where
  data : Nat
deriving DecidableEq

def ParticleSystem.default : ParticleSystem := ⟨0⟩

/-- The `NodeKind` tagged union of `src/scene/node.rs`: one of Base, Light,
Camera, Mesh, ParticleSystem, each non-Base variant carrying its payload. -/
inductive NodeKind where
  | base : NodeKind
  | light : Light → NodeKind
  | camera : Camera → NodeKind
  | mesh : Mesh → NodeKind
  | particleSystem : ParticleSystem → NodeKind
deriving DecidableEq

/-- `NodeKind::new` (`node.rs` lines 60–69): creates a new `NodeKind` based on
the variant id, default-initializing the payload; any id outside 0–4 is an
error. The Rust `u8` argument is modelled as `Nat` (every `u8` value is
covered; the wildcard arm covers the rest of `Nat` just as it covers the rest
of `u8`). -/
def NodeKind.new (id : Nat) : Except String NodeKind :=
  match id with
  | 0 => .ok NodeKind.base
  | 1 => .ok (NodeKind.light Light.default)
  | 2 => .ok (NodeKind.camera Camera.default)
  | 3 => .ok (NodeKind.mesh Mesh.default)
  | 4 => .ok (NodeKind.particleSystem ParticleSystem.default)
  | _ => .error ("Invalid node kind " ++ toString id)

/-- `NodeKind::id` (`node.rs` lines 72–80): the fixed variant id. -/
def NodeKind.id : NodeKind → Nat
  | NodeKind.base => 0
  | NodeKind.light _ => 1
  | NodeKind.camera _ => 2
  | NodeKind.mesh _ => 3
  | NodeKind.particleSystem _ => 4

/-- `impl Clone for NodeKind` (`node.rs` lines 46–56): clones the payload per
variant. Payload `clone` is value copy in this embedding. -/
def NodeKind.clone : NodeKind → NodeKind
  | NodeKind.base => NodeKind.base
  | NodeKind.camera c => NodeKind.camera c
  | NodeKind.light l => NodeKind.light l
  | NodeKind.mesh m => NodeKind.mesh m
  | NodeKind.particleSystem p => NodeKind.particleSystem p

/-- The `Node` struct of `src/scene/node.rs` (lines 83–100), fields in source
order. `resource` is the optional shared template reference, `original` the
handle of the corresponding node inside that template. -/
structure Node where
  name : String
  kind : NodeKind
  local_transform : Transform
  visibility : Bool
  global_visibility : Bool
  parent : Handle
  children : List Handle
  global_transform : Mat4
  inv_bind_pose_transform : Mat4
  body : Handle
  resource : Option ModelRef
  original : Handle
deriving DecidableEq

/-- `impl Default for Node` (`node.rs` lines 102–119). -/
def Node.default : Node :=
  { kind := NodeKind.base
    name := ""
    children := []
    parent := Handle.none
    visibility := true
    global_visibility := true
    local_transform := Transform.identity
    global_transform := Mat4.identity
    inv_bind_pose_transform := Mat4.identity
    body := Handle.none
    resource := Option.none
    original := Handle.none }

/-- `Node::new` (`node.rs` lines 122–137). -/
def Node.new (kind : NodeKind) : Node :=
  { kind := kind
    name := "Node"
    children := []
    parent := Handle.none
    visibility := true
    global_visibility := true
    local_transform := Transform.identity
    global_transform := Mat4.identity
    inv_bind_pose_transform := Mat4.identity
    body := Handle.none
    resource := Option.none
    original := Handle.none }

/-- `Node::get_resource` (`node.rs` lines 189–191): clones the `Arc` inside the
option; `Arc` clone is reference copy, modelled as the identity on the
reference value. -/
def Node.get_resource (self : Node) : Option ModelRef :=
  self.resource.bind fun r => some r

/-- `Node::make_copy` (`node.rs` lines 141–156): copies variant payload, name,
transform (via `clone`, so with a fresh cache), global transform, visibility
flags, binding matrix and resource reference; resets children, parent and body;
sets `original` to the supplied handle. -/
def Node.make_copy (self : Node) (original : Handle) : Node :=
  { kind := self.kind.clone
    name := self.name
    local_transform := self.local_transform.clone
    global_transform := self.global_transform
    visibility := self.visibility
    global_visibility := self.global_visibility
    inv_bind_pose_transform := self.inv_bind_pose_transform
    children := []
    parent := Handle.none
    body := Handle.none
    resource := self.get_resource
    original := original }

/-- `Node::get_original_handle` (`node.rs` lines 159–161). -/
def Node.get_original_handle (self : Node) : Handle :=
  self.original

/-! ### Visitor protocol

Modelled from the spec: the Visitor protocol (`rg3d_core::visitor` is not under
`src/`) is a named-field read/write serialization mechanism: fields are visited
by stable string keys inside a region; unknown keys encountered while reading
are skipped, missing keys use the type's default. The region a node's visit
produces or consumes is modelled as an association list from field keys to
typed field values; the sub-encoding of each leaf type is opaque here, so a
field value stores the leaf value directly. `enter_region`/`leave_region`
bracket the node's own region, which is exactly the list below. -/

/-- Modelled from the spec: the value a single named field of a node's region
holds in the serialization stream, one constructor per leaf type the node
module visits. -/
inductive FieldValue where
  | u8 : Nat → FieldValue
  | boolean : Bool → FieldValue
  | string : String → FieldValue
  | transform : Vec3 → Quat → Vec3 → FieldValue
  | handle : Handle → FieldValue
  | handleList : List Handle → FieldValue
  | mat4 : Mat4 → FieldValue
  | lightData : Light → FieldValue
  | cameraData : Camera → FieldValue
  | meshData : Mesh → FieldValue
  | particleSystemData : ParticleSystem → FieldValue
  | resourceRef : Option ModelRef → FieldValue
deriving DecidableEq

/-- Modelled from the spec: the region a node's visit writes/reads, an ordered
list of named fields. -/
abbrev Region := List (String × FieldValue)

/-- Modelled from the spec: reading a field by its stable string key: the first
field with that key, if any. -/
def lookupField (r : Region) (key : String) : Option FieldValue :=
  (r.find? fun f => f.1 = key).map fun f => f.2

/-- Modelled from the spec: reading a `u8` field: a present key must hold a
`u8` value (anything else is a format failure), a missing key yields the
type's default. -/
def readU8 (r : Region) (key : String) : Except String Nat :=
  match lookupField r key with
  | some (FieldValue.u8 v) => .ok v
  | some _ => .error ("field type mismatch at " ++ key)
  | none => .ok 0

/-- Modelled from the spec: reading a `bool` field. -/
def readBool (r : Region) (key : String) : Except String Bool :=
  match lookupField r key with
  | some (FieldValue.boolean v) => .ok v
  | some _ => .error ("field type mismatch at " ++ key)
  | none => .ok false

/-- Modelled from the spec: reading a `String` field. -/
def readString (r : Region) (key : String) : Except String String :=
  match lookupField r key with
  | some (FieldValue.string v) => .ok v
  | some _ => .error ("field type mismatch at " ++ key)
  | none => .ok ""

/-- Modelled from the spec: reading a `Transform` field: the authored fields
come from the stream and the matrix cache of the resulting transform is not
shared with any other transform. -/
def readTransform (r : Region) (key : String) : Except String Transform :=
  match lookupField r key with
  | some (FieldValue.transform p q s) =>
      .ok { position := p, rotation := q, scale := s, cacheValid := false }
  | some _ => .error ("field type mismatch at " ++ key)
  | none => .ok Transform.identity

/-- Modelled from the spec: reading a `Handle` field. -/
def readHandle (r : Region) (key : String) : Except String Handle :=
  match lookupField r key with
  | some (FieldValue.handle v) => .ok v
  | some _ => .error ("field type mismatch at " ++ key)
  | none => .ok Handle.none

/-- Modelled from the spec: reading a `Vec<Handle>` field. -/
def readHandleList (r : Region) (key : String) : Except String (List Handle) :=
  match lookupField r key with
  | some (FieldValue.handleList v) => .ok v
  | some _ => .error ("field type mismatch at " ++ key)
  | none => .ok []

/-- Modelled from the spec: reading a `Mat4` field. -/
def readMat4 (r : Region) (key : String) : Except String Mat4 :=
  match lookupField r key with
  | some (FieldValue.mat4 v) => .ok v
  | some _ => .error ("field type mismatch at " ++ key)
  | none => .ok Mat4.identity

/-- Modelled from the spec: reading an `Option<Arc<Mutex<Model>>>` field. -/
def readResource (r : Region) (key : String) : Except String (Option ModelRef) :=
  match lookupField r key with
  | some (FieldValue.resourceRef v) => .ok v
  | some _ => .error ("field type mismatch at " ++ key)
  | none => .ok Option.none

/-- `impl Visit for NodeKind` (`node.rs` lines 34–44), writing direction: Base
visits nothing (and so contributes no field), each other variant delegates to
its payload's visit under the given key. -/
def NodeKind.visit_write (k : NodeKind) (key : String) : Region :=
  match k with
  | NodeKind.base => []
  | NodeKind.light l => [(key, FieldValue.lightData l)]
  | NodeKind.camera c => [(key, FieldValue.cameraData c)]
  | NodeKind.mesh m => [(key, FieldValue.meshData m)]
  | NodeKind.particleSystem p => [(key, FieldValue.particleSystemData p)]

/-- `impl Visit for NodeKind` (`node.rs` lines 34–44), reading direction: Base
reads nothing, each other variant populates its payload from the field under
the given key (a missing key leaves the default-initialized payload, a
mismatched field is a format failure). -/
def NodeKind.visit_read (k : NodeKind) (key : String) (r : Region) :
    Except String NodeKind :=
  match k with
  | NodeKind.base => .ok NodeKind.base
  | NodeKind.light l =>
      match lookupField r key with
      | some (FieldValue.lightData v) => .ok (NodeKind.light v)
      | some _ => .error ("field type mismatch at " ++ key)
      | none => .ok (NodeKind.light l)
  | NodeKind.camera c =>
      match lookupField r key with
      | some (FieldValue.cameraData v) => .ok (NodeKind.camera v)
      | some _ => .error ("field type mismatch at " ++ key)
      | none => .ok (NodeKind.camera c)
  | NodeKind.mesh m =>
      match lookupField r key with
      | some (FieldValue.meshData v) => .ok (NodeKind.mesh v)
      | some _ => .error ("field type mismatch at " ++ key)
      | none => .ok (NodeKind.mesh m)
  | NodeKind.particleSystem p =>
      match lookupField r key with
      | some (FieldValue.particleSystemData v) => .ok (NodeKind.particleSystem v)
      | some _ => .error ("field type mismatch at " ++ key)
      | none => .ok (NodeKind.particleSystem p)

/-- `impl Visit for Node` (`node.rs` lines 277–301), writing direction: inside
the node's region, first the "KindId" field holding `self.kind.id()`, then the
"Kind" payload (absent for Base), then Name, Transform, Visibility, Parent,
Children, Body, Resource and InvBindPoseTransform, in source order. The
derived fields `global_visibility`, `global_transform` and the `original`
handle are not serialized. -/
def Node.visit_write (self : Node) : Region :=
  ("KindId", FieldValue.u8 self.kind.id) ::
  (self.kind.visit_write "Kind" ++
    [("Name", FieldValue.string self.name),
     ("Transform", FieldValue.transform self.local_transform.position
        self.local_transform.rotation self.local_transform.scale),
     ("Visibility", FieldValue.boolean self.visibility),
     ("Parent", FieldValue.handle self.parent),
     ("Children", FieldValue.handleList self.children),
     ("Body", FieldValue.handle self.body),
     ("Resource", FieldValue.resourceRef self.resource),
     ("InvBindPoseTransform", FieldValue.mat4 self.inv_bind_pose_transform)])

/-- `impl Visit for Node` (`node.rs` lines 277–301), reading direction: read
the "KindId" field, replace `self.kind` by `NodeKind::new(kind_id)?` (an
unknown id aborts the whole visit here), then populate the new kind's payload
from "Kind" and the remaining fields in source order. Fields the visit does
not touch (`global_visibility`, `global_transform`, `original`) keep the
values `self` already has. -/
def Node.visit_read (self : Node) (r : Region) : Except String Node := do
  let kind_id ← readU8 r "KindId"
  let kind0 ← NodeKind.new kind_id
  let kind ← kind0.visit_read "Kind" r
  let name ← readString r "Name"
  let local_transform ← readTransform r "Transform"
  let visibility ← readBool r "Visibility"
  let parent ← readHandle r "Parent"
  let children ← readHandleList r "Children"
  let body ← readHandle r "Body"
  let resource ← readResource r "Resource"
  let inv_bind_pose_transform ← readMat4 r "InvBindPoseTransform"
  .ok { self with
          kind := kind
          name := name
          local_transform := local_transform
          visibility := visibility
          parent := parent
          children := children
          body := body
          resource := resource
          inv_bind_pose_transform := inv_bind_pose_transform }

/-! ### Scene gizmo click handling (`editor/src/scene_viewer/gizmo.rs`)

The ray construction (`Camera::make_ray`), bounding boxes and
`ray.aabb_intersection` live in the engine library, not under `src/`, so the
hit test is an input: a function giving, for each node handle, the optional
ray–AABB intersection result of the ray through the clicked point with that
node's transformed bounding box. Intersection parameters are machine floats
that `on_click` only compares, modelled as exact rationals. -/

/-- `CameraRotation` (`gizmo.rs` lines 28–31). Angles are kept in degrees; the
source converts the same constants with `to_radians()`, a fixed scaling that
none of the claims depend on. -/
structure CameraRotation where
  yaw : ℚ
  pitch : ℚ
deriving DecidableEq

/-- Modelled from the spec: the result of `ray.aabb_intersection`; `min` is the
entry parameter of the ray into the box, `max` the exit parameter. -/
structure IntersectionResult where
  min : ℚ
  max : ℚ
deriving DecidableEq

/-- The exact rational value of `f32::MAX` (that is, 2^128 − 2^104), the
initial value of `min_toi` in `SceneGizmo::on_click`. -/
def f32MAX : ℚ := 340282346638528859811704183484516925440

/-- The handle fields of `SceneGizmo` (`gizmo.rs` lines 33–46) that take part
in `on_click`; the scene, render target and camera chain handles are used only
to obtain the ray, which is already folded into the hit-test input. -/
structure SceneGizmo where
  pos_x : Handle
  neg_x : Handle
  pos_y : Handle
  neg_y : Handle
  pos_z : Handle
  neg_z : Handle
  center : Handle
deriving DecidableEq

/-- The fixed query order of the hit-test loop in `SceneGizmo::on_click`
(`gizmo.rs` lines 237–245): center first, then the six axis cones. -/
def SceneGizmo.queryOrder (g : SceneGizmo) : List Handle :=
  [g.center, g.pos_x, g.neg_x, g.pos_y, g.neg_y, g.pos_z, g.neg_z]

/-- The hit-test loop of `SceneGizmo::on_click` (`gizmo.rs` lines 235–257):
starting from `closest = Handle::NONE` and `min_toi = f32::MAX`, each node in
query order whose bounding box the ray intersects with entry parameter
strictly below the current minimum becomes the new closest node. -/
def closestScan (hit : Handle → Option IntersectionResult) :
    List Handle → Handle × ℚ → Handle × ℚ
  | [], acc => acc
  | node :: rest, (closest, min_toi) =>
      match hit node with
      | some result =>
          if result.min < min_toi then
            closestScan hit rest (node, result.min)
          else
            closestScan hit rest (closest, min_toi)
      | none => closestScan hit rest (closest, min_toi)

/-- `SceneGizmo::on_click` (`gizmo.rs` lines 223–292): run the hit-test loop
over the seven gizmo nodes, then map the closest handle to a camera rotation —
the six axis cones each give a fixed yaw/pitch, anything else (the center cube
or no hit at all) gives `None`. -/
def SceneGizmo.on_click (g : SceneGizmo)
    (hit : Handle → Option IntersectionResult) : Option CameraRotation :=
  let closest := (closestScan hit g.queryOrder (Handle.none, f32MAX)).1
  if closest = g.neg_x then
    some { pitch := 0, yaw := -90 }
  else if closest = g.pos_x then
    some { pitch := 0, yaw := 90 }
  else if closest = g.neg_y then
    some { pitch := -90, yaw := 0 }
  else if closest = g.pos_y then
    some { pitch := 90, yaw := 0 }
  else if closest = g.neg_z then
    some { pitch := 0, yaw := 0 }
  else if closest = g.pos_z then
    some { pitch := 0, yaw := -180 }
  else
    Option.none

/-! ### Concrete example inputs used by witnesses and counterexamples -/

/-- A scene gizmo with seven concrete, pairwise distinct node handles, as the
pool produces for the seven gizmo nodes. -/
def gizmoExample : SceneGizmo :=
  { pos_x := ⟨1, 0⟩, neg_x := ⟨2, 0⟩, pos_y := ⟨3, 0⟩, neg_y := ⟨4, 0⟩,
    pos_z := ⟨5, 0⟩, neg_z := ⟨6, 0⟩, center := ⟨7, 0⟩ }

/-- A hit test in which the ray enters the center cube and the pos_x cone at
the same parametric distance and misses everything else. -/
def hitTie : Handle → Option IntersectionResult := fun n =>
  if n = gizmoExample.center ∨ n = gizmoExample.pos_x then some ⟨1, 2⟩
  else Option.none

/-- A hit test in which the ray hits only the pos_y cone. -/
def hitPosY : Handle → Option IntersectionResult := fun n =>
  if n = gizmoExample.pos_y then some ⟨5, 6⟩ else Option.none

/-- A region holding only a "KindId" field with the out-of-range id 77. -/
def regionBadKind : Region := [("KindId", FieldValue.u8 77)]

/-- A region holding only a "KindId" field with the Mesh id 3. -/
def regionMeshKind : Region := [("KindId", FieldValue.u8 3)]

/-- The node obtained by reading `regionMeshKind` into a default node: the
kind becomes the default Mesh variant and every other serialized field takes
its type's default (so visibility, whose `bool` default is false). -/
def meshReadResult : Node :=
  { Node.default with kind := NodeKind.mesh Mesh.default, visibility := false }

/-! ### Helper lemmas -/

/-- Cloning a `NodeKind` is the identity on the value. -/
theorem NodeKind.clone_eq (k : NodeKind) : k.clone = k := by
  cases k <;> rfl

/-- `get_resource` returns the very reference stored in the node. -/
theorem Node.get_resource_eq (n : Node) : n.get_resource = n.resource := by
  cases h : n.resource <;> simp [Node.get_resource, h]

/-- Binding a successful `Except` computation runs the continuation. -/
theorem except_bind_ok {ε α β : Type} (a : α) (f : α → Except ε β) :
    (Except.ok a : Except ε α) >>= f = f a := rfl

/-- Successful bind in `Except` splits into a successful first step and a
successful continuation. -/
theorem except_bind_eq_ok {ε α β : Type} {x : Except ε α} {f : α → Except ε β}
    {b : β} (h : x >>= f = .ok b) : ∃ a, x = .ok a ∧ f a = .ok b := by
  cases x with
  | ok a => exact ⟨a, rfl, h⟩
  | error e => exact Except.noConfusion h

/-- A successfully constructed `NodeKind` carries exactly the requested id. -/
theorem nodeKind_new_id {id : Nat} {k : NodeKind}
    (h : NodeKind.new id = .ok k) : k.id = id := by
  match id, h with
  | 0, h => cases h; rfl
  | 1, h => cases h; rfl
  | 2, h => cases h; rfl
  | 3, h => cases h; rfl
  | 4, h => cases h; rfl
  | n + 5, h => exact Except.noConfusion h

/-- Reading a kind payload never changes the variant (and hence the id) of the
kind it populates. -/
theorem nodeKind_visit_read_id {k k2 : NodeKind} {key : String} {r : Region}
    (h : k.visit_read key r = .ok k2) : k2.id = k.id := by
  cases k <;> simp only [NodeKind.visit_read] at h <;>
    first
    | (cases h; rfl)
    | (split at h <;> first | (cases h; rfl) | exact Except.noConfusion h)

/-- Full characterization of the hit-test loop: either no tested node beats the
initial threshold and the accumulator survives, or the loop returns the node at
some index whose intersection entry parameter beats the threshold, is strictly
below every earlier-tested intersecting node's, and is not above any
later-tested intersecting node's (ties keep the earlier node). -/
theorem closestScan_spec (hit : Handle → Option IntersectionResult)
    (L : List Handle) (c0 : Handle) (m0 : ℚ) :
    (closestScan hit L (c0, m0) = (c0, m0) ∧
       ∀ (i : Nat) (hi : i < L.length) (t : IntersectionResult),
         hit (L.get ⟨i, hi⟩) = some t → m0 ≤ t.min)
    ∨ (∃ (i : Nat) (hi : i < L.length) (t : IntersectionResult),
         hit (L.get ⟨i, hi⟩) = some t ∧
         closestScan hit L (c0, m0) = (L.get ⟨i, hi⟩, t.min) ∧
         t.min < m0 ∧
         (∀ (e : Nat) (he : e < L.length), e < i →
            ∀ s : IntersectionResult, hit (L.get ⟨e, he⟩) = some s →
              t.min < s.min) ∧
         (∀ (j : Nat) (hj : j < L.length), i < j →
            ∀ s : IntersectionResult, hit (L.get ⟨j, hj⟩) = some s →
              t.min ≤ s.min)) := by
  induction L generalizing c0 m0 with
  | nil =>
      left
      refine ⟨rfl, ?_⟩
      intro i hi
      exact absurd hi (by simp)
  | cons hd tl ih =>
      cases hhd : hit hd with
      | none =>
          have hstep : closestScan hit (hd :: tl) (c0, m0)
              = closestScan hit tl (c0, m0) := by
            simp [closestScan, hhd]
          rcases ih c0 m0 with ⟨heq, hall⟩ |
            ⟨i, hi, t, ht, heq, hlt, hearly, hlate⟩
          · left
            refine ⟨hstep.trans heq, ?_⟩
            intro i hi t ht
            cases i with
            | zero =>
                have ht0 : hit hd = some t := ht
                rw [hhd] at ht0
                exact Option.noConfusion ht0
            | succ i => exact hall i (Nat.lt_of_succ_lt_succ hi) t ht
          · right
            refine ⟨i + 1, Nat.succ_lt_succ hi, t, ht, hstep.trans heq, hlt,
              ?_, ?_⟩
            · intro e he hei s hs
              cases e with
              | zero =>
                  have hs0 : hit hd = some s := hs
                  rw [hhd] at hs0
                  exact Option.noConfusion hs0
              | succ e =>
                  exact hearly e (Nat.lt_of_succ_lt_succ he)
                    (Nat.lt_of_succ_lt_succ hei) s hs
            · intro j hj hij s hs
              cases j with
              | zero => exact absurd hij (by omega)
              | succ j =>
                  exact hlate j (Nat.lt_of_succ_lt_succ hj)
                    (Nat.lt_of_succ_lt_succ hij) s hs
      | some t0 =>
          by_cases hcmp : t0.min < m0
          · have hstep : closestScan hit (hd :: tl) (c0, m0)
                = closestScan hit tl (hd, t0.min) := by
              simp [closestScan, hhd, hcmp]
            rcases ih hd t0.min with ⟨heq, hall⟩ |
              ⟨i, hi, t, ht, heq, hlt, hearly, hlate⟩
            · right
              refine ⟨0, Nat.succ_pos tl.length, t0, hhd, hstep.trans heq,
                hcmp, ?_, ?_⟩
              · intro e he hei s hs
                exact absurd hei (Nat.not_lt_zero e)
              · intro j hj hij s hs
                cases j with
                | zero => exact absurd hij (by omega)
                | succ j => exact hall j (Nat.lt_of_succ_lt_succ hj) s hs
            · right
              refine ⟨i + 1, Nat.succ_lt_succ hi, t, ht, hstep.trans heq,
                lt_trans hlt hcmp, ?_, ?_⟩
              · intro e he hei s hs
                cases e with
                | zero =>
                    have hs0 : hit hd = some s := hs
                    rw [hhd] at hs0
                    injection hs0 with h
                    subst h
                    exact hlt
                | succ e =>
                    exact hearly e (Nat.lt_of_succ_lt_succ he)
                      (Nat.lt_of_succ_lt_succ hei) s hs
              · intro j hj hij s hs
                cases j with
                | zero => exact absurd hij (by omega)
                | succ j =>
                    exact hlate j (Nat.lt_of_succ_lt_succ hj)
                      (Nat.lt_of_succ_lt_succ hij) s hs
          · have hstep : closestScan hit (hd :: tl) (c0, m0)
                = closestScan hit tl (c0, m0) := by
              simp [closestScan, hhd, hcmp]
            rcases ih c0 m0 with ⟨heq, hall⟩ |
              ⟨i, hi, t, ht, heq, hlt, hearly, hlate⟩
            · left
              refine ⟨hstep.trans heq, ?_⟩
              intro i hi t ht
              cases i with
              | zero =>
                  have ht0 : hit hd = some t := ht
                  rw [hhd] at ht0
                  injection ht0 with h
                  subst h
                  exact not_lt.mp hcmp
              | succ i => exact hall i (Nat.lt_of_succ_lt_succ hi) t ht
            · right
              refine ⟨i + 1, Nat.succ_lt_succ hi, t, ht, hstep.trans heq, hlt,
                ?_, ?_⟩
              · intro e he hei s hs
                cases e with
                | zero =>
                    have hs0 : hit hd = some s := hs
                    rw [hhd] at hs0
                    injection hs0 with h
                    subst h
                    exact lt_of_lt_of_le hlt (not_lt.mp hcmp)
                | succ e =>
                    exact hearly e (Nat.lt_of_succ_lt_succ he)
                      (Nat.lt_of_succ_lt_succ hei) s hs
              · intro j hj hij s hs
                cases j with
                | zero => exact absurd hij (by omega)
                | succ j =>
                    exact hlate j (Nat.lt_of_succ_lt_succ hj)
                      (Nat.lt_of_succ_lt_succ hij) s hs

/-- The handle the hit-test loop returns is the initial one or one of the
scanned handles. -/
theorem closestScan_fst_mem (hit : Handle → Option IntersectionResult)
    (L : List Handle) (acc : Handle × ℚ) :
    (closestScan hit L acc).1 = acc.1 ∨ (closestScan hit L acc).1 ∈ L := by
  induction L generalizing acc with
  | nil => left; rfl
  | cons hd tl ih =>
      obtain ⟨c0, m0⟩ := acc
      cases hhd : hit hd with
      | none =>
          have hstep : closestScan hit (hd :: tl) (c0, m0)
              = closestScan hit tl (c0, m0) := by
            simp [closestScan, hhd]
          rw [hstep]
          rcases ih (c0, m0) with h | h
          · left; exact h
          · right; exact List.mem_cons_of_mem hd h
      | some t0 =>
          by_cases hcmp : t0.min < m0
          · have hstep : closestScan hit (hd :: tl) (c0, m0)
                = closestScan hit tl (hd, t0.min) := by
              simp [closestScan, hhd, hcmp]
            rw [hstep]
            rcases ih (hd, t0.min) with h | h
            · right; rw [h]; exact List.mem_cons_self hd tl
            · right; exact List.mem_cons_of_mem hd h
          · have hstep : closestScan hit (hd :: tl) (c0, m0)
                = closestScan hit tl (c0, m0) := by
              simp [closestScan, hhd, hcmp]
            rw [hstep]
            rcases ih (c0, m0) with h | h
            · left; exact h
            · right; exact List.mem_cons_of_mem hd h

/-- When no scanned node's bounding box is hit, the loop returns its initial
accumulator. -/
theorem closestScan_all_none (hit : Handle → Option IntersectionResult)
    (L : List Handle) (acc : Handle × ℚ) :
    (∀ n ∈ L, hit n = Option.none) → closestScan hit L acc = acc := by
  induction L generalizing acc with
  | nil => intro _; rfl
  | cons hd tl ih =>
      intro h
      obtain ⟨c0, m0⟩ := acc
      have hhd : hit hd = Option.none := h hd (List.mem_cons_self hd tl)
      have hstep : closestScan hit (hd :: tl) (c0, m0)
          = closestScan hit tl (c0, m0) := by
        simp [closestScan, hhd]
      rw [hstep]
      exact ih (c0, m0) fun n hn => h n (List.mem_cons_of_mem hd hn)

/-! ### Claim theorems -/

/-- C3: `NodeKind::new(id)` returns Ok exactly for ids 0–4, yielding the
default-initialized variant associated with the id (0 Base, 1 Light, 2 Camera,
3 Mesh, 4 ParticleSystem), and returns Err for every id of 5 or more. -/
theorem nodeKind_new_ok_iff_known_id :
    NodeKind.new 0 = .ok NodeKind.base ∧
    NodeKind.new 1 = .ok (NodeKind.light Light.default) ∧
    NodeKind.new 2 = .ok (NodeKind.camera Camera.default) ∧
    NodeKind.new 3 = .ok (NodeKind.mesh Mesh.default) ∧
    NodeKind.new 4 = .ok (NodeKind.particleSystem ParticleSystem.default) ∧
    ∀ id : Nat, 5 ≤ id →
      NodeKind.new id = .error ("Invalid node kind " ++ toString id) := by
  refine ⟨rfl, rfl, rfl, rfl, rfl, ?_⟩
  intro id h
  match id, h with
  | n + 5, _ => rfl

/-- Witness for C3 at the concrete out-of-range id 9. -/
theorem nodeKind_new_ok_iff_known_id_witness :
    5 ≤ 9 ∧ NodeKind.new 9 = .error ("Invalid node kind " ++ toString 9) :=
  ⟨by decide, nodeKind_new_ok_iff_known_id.2.2.2.2.2 9 (by decide)⟩

/-- C4: the id↔variant mapping is a fixed bijection on ids 0–4: every kind's
id lies in 0–4 and reconstructing from it gives a kind with the same variant
tag, and every id in 0–4 constructs a kind whose id is that id. -/
theorem nodeKind_id_new_bijection :
    (∀ k : NodeKind, k.id < 5 ∧
        ∃ v : NodeKind, NodeKind.new k.id = .ok v ∧ v.id = k.id) ∧
    ∀ id : Nat, id < 5 → ∃ v : NodeKind, NodeKind.new id = .ok v ∧ v.id = id := by
  constructor
  · intro k
    cases k with
    | base => exact ⟨show (0 : Nat) < 5 by decide, NodeKind.base, rfl, rfl⟩
    | light l =>
        exact ⟨show (1 : Nat) < 5 by decide, NodeKind.light Light.default, rfl, rfl⟩
    | camera c =>
        exact ⟨show (2 : Nat) < 5 by decide, NodeKind.camera Camera.default, rfl, rfl⟩
    | mesh m =>
        exact ⟨show (3 : Nat) < 5 by decide, NodeKind.mesh Mesh.default, rfl, rfl⟩
    | particleSystem p =>
        exact ⟨show (4 : Nat) < 5 by decide,
          NodeKind.particleSystem ParticleSystem.default, rfl, rfl⟩
  · intro id h
    match id, h with
    | 0, _ => exact ⟨NodeKind.base, rfl, rfl⟩
    | 1, _ => exact ⟨NodeKind.light Light.default, rfl, rfl⟩
    | 2, _ => exact ⟨NodeKind.camera Camera.default, rfl, rfl⟩
    | 3, _ => exact ⟨NodeKind.mesh Mesh.default, rfl, rfl⟩
    | 4, _ => exact ⟨NodeKind.particleSystem ParticleSystem.default, rfl, rfl⟩
    | n + 5, h => exact absurd h (by omega)

/-- Witness for C4 at the concrete id 3. -/
theorem nodeKind_id_new_bijection_witness :
    3 < 5 ∧ ∃ v : NodeKind, NodeKind.new 3 = .ok v ∧ v.id = 3 :=
  ⟨by decide, nodeKind_id_new_bijection.2 3 (by decide)⟩

/-- C6: for every node and every handle, `make_copy` always resets the copy's
children to empty, its parent to the none handle and its body to the none
handle, regardless of the source node's values. -/
theorem make_copy_resets_structural_links (n : Node) (h : Handle) :
    (n.make_copy h).children = [] ∧
    (n.make_copy h).parent = Handle.none ∧
    (n.make_copy h).body = Handle.none :=
  ⟨rfl, rfl, rfl⟩

/-- C7: `make_copy` preserves the variant id, name, visibility flags, binding
matrix, authored local-transform fields and the shared resource reference
(present iff the source's is present), gives the copy a fresh (invalid)
transform matrix cache, and sets `original` to the supplied handle. The source
node is untouched (`make_copy` takes `&self`; in this pure embedding it is a
function of the source value), so every repetition of the call yields the same
independent copy with `original` equal to the supplied handle. -/
theorem make_copy_preserves_fields (n : Node) (h : Handle) :
    (n.make_copy h).kind.id = n.kind.id ∧
    (n.make_copy h).name = n.name ∧
    (n.make_copy h).visibility = n.visibility ∧
    (n.make_copy h).global_visibility = n.global_visibility ∧
    (n.make_copy h).inv_bind_pose_transform = n.inv_bind_pose_transform ∧
    (n.make_copy h).local_transform.position = n.local_transform.position ∧
    (n.make_copy h).local_transform.rotation = n.local_transform.rotation ∧
    (n.make_copy h).local_transform.scale = n.local_transform.scale ∧
    (n.make_copy h).local_transform.cacheValid = false ∧
    (n.make_copy h).resource = n.resource ∧
    ((n.make_copy h).resource.isSome ↔ n.resource.isSome) ∧
    (n.make_copy h).get_original_handle = h := by
  refine ⟨?_, rfl, rfl, rfl, rfl, rfl, rfl, rfl, rfl, ?_, ?_, rfl⟩
  · show n.kind.clone.id = n.kind.id
    rw [NodeKind.clone_eq]
  · show n.get_resource = n.resource
    exact n.get_resource_eq
  · show n.get_resource.isSome ↔ n.resource.isSome
    rw [n.get_resource_eq]

/-- C9: every node built by `Node::new` starts detached and fully visible with
identity transforms: visibility and global visibility true, parent, body and
original none, children empty, resource absent, identity local transform,
global transform and inverse bind pose matrix, and name "Node"; `Node::default`
is the same state except that its kind is Base and its name is empty. -/
theorem node_new_detached_identity_state :
    (∀ k : NodeKind,
        (Node.new k).kind = k ∧
        (Node.new k).name = "Node" ∧
        (Node.new k).visibility = true ∧
        (Node.new k).global_visibility = true ∧
        (Node.new k).parent = Handle.none ∧
        (Node.new k).children = [] ∧
        (Node.new k).body = Handle.none ∧
        (Node.new k).resource = Option.none ∧
        (Node.new k).original = Handle.none ∧
        (Node.new k).local_transform = Transform.identity ∧
        (Node.new k).global_transform = Mat4.identity ∧
        (Node.new k).inv_bind_pose_transform = Mat4.identity) ∧
    Node.default = { Node.new NodeKind.base with name := "" } :=
  ⟨fun _ => ⟨rfl, rfl, rfl, rfl, rfl, rfl, rfl, rfl, rfl, rfl, rfl, rfl⟩, rfl⟩

/-- C1: serializing any node with a writing visit and reading the produced
region into a default-constructed node succeeds and yields a node whose kind
variant id, name, authored local-transform fields, visibility, parent handle,
children sequence, body handle, resource reference and inverse bind pose
matrix are equal to the original's (matrix entries are exact scalars, so this
is exact-bit equality on the underlying floats). -/
theorem node_visit_roundtrip (n : Node) :
    ∃ m : Node, Node.default.visit_read n.visit_write = .ok m ∧
      m.kind.id = n.kind.id ∧
      m.name = n.name ∧
      m.local_transform.position = n.local_transform.position ∧
      m.local_transform.rotation = n.local_transform.rotation ∧
      m.local_transform.scale = n.local_transform.scale ∧
      m.visibility = n.visibility ∧
      m.parent = n.parent ∧
      m.children = n.children ∧
      m.body = n.body ∧
      m.resource = n.resource ∧
      m.inv_bind_pose_transform = n.inv_bind_pose_transform := by
  obtain ⟨name, kind, lt, vis, gvis, par, ch, gt, ibp, body, res, orig⟩ := n
  cases kind <;>
    exact ⟨_, rfl, rfl, rfl, rfl, rfl, rfl, rfl, rfl, rfl, rfl, rfl, rfl⟩

/-- C2: whenever the region's "KindId" field holds an id outside 0–4, the
reading visit fails with the unknown-variant error instead of substituting any
default variant, and no node is produced at all (so no subsequent field is
populated from that region). -/
theorem node_visit_read_unknown_variant (self : Node) (r : Region) (id : Nat)
    (hfield : lookupField r "KindId" = some (FieldValue.u8 id))
    (hid : 5 ≤ id) :
    self.visit_read r = .error ("Invalid node kind " ++ toString id) := by
  obtain ⟨m, rfl⟩ : ∃ m, id = m + 5 := ⟨id - 5, by omega⟩
  have h1 : readU8 r "KindId" = .ok (m + 5) := by
    simp [readU8, hfield]
  simp [Node.visit_read, h1, NodeKind.new]
  rfl

/-- Witness for C2: a region with KindId 77 makes the reading visit fail. -/
theorem node_visit_read_unknown_variant_witness :
    lookupField regionBadKind "KindId" = some (FieldValue.u8 77) ∧
    5 ≤ 77 ∧
    Node.default.visit_read regionBadKind =
      .error ("Invalid node kind " ++ toString 77) :=
  ⟨rfl, by decide,
    node_visit_read_unknown_variant Node.default regionBadKind 77 rfl (by decide)⟩

/-- C5: a node's visit handles the variant id strictly before the variant
payload: the first field the writing visit produces is "KindId" holding
exactly `self.kind.id()` (so the "Kind" payload field can only come later),
and a successful reading visit yields a node whose kind is the variant
reconstructed from the id found in the stream — its variant id equals the
stream's "KindId" value no matter what kind the visited node held before. -/
theorem node_visit_kind_id_before_payload :
    (∀ n : Node, ∃ rest : Region,
        n.visit_write = ("KindId", FieldValue.u8 n.kind.id) :: rest) ∧
    ∀ (self m : Node) (r : Region) (id : Nat),
      lookupField r "KindId" = some (FieldValue.u8 id) →
      self.visit_read r = .ok m → m.kind.id = id := by
  constructor
  · intro n
    exact ⟨_, rfl⟩
  · intro self m r id hfield hread
    have h1 : readU8 r "KindId" = .ok id := by
      simp [readU8, hfield]
    rw [Node.visit_read, h1, except_bind_ok] at hread
    obtain ⟨kind0, hnew, hread⟩ := except_bind_eq_ok hread
    obtain ⟨kind, hkind, hread⟩ := except_bind_eq_ok hread
    obtain ⟨nm, _, hread⟩ := except_bind_eq_ok hread
    obtain ⟨tr, _, hread⟩ := except_bind_eq_ok hread
    obtain ⟨vi, _, hread⟩ := except_bind_eq_ok hread
    obtain ⟨pa, _, hread⟩ := except_bind_eq_ok hread
    obtain ⟨chl, _, hread⟩ := except_bind_eq_ok hread
    obtain ⟨bo, _, hread⟩ := except_bind_eq_ok hread
    obtain ⟨re, _, hread⟩ := except_bind_eq_ok hread
    obtain ⟨ib, _, hread⟩ := except_bind_eq_ok hread
    cases hread
    calc kind.id = kind0.id := nodeKind_visit_read_id hkind
      _ = id := nodeKind_new_id hnew

/-- Witness for C5: reading a region whose KindId is 3 into the default (Base)
node yields a Mesh node. -/
theorem node_visit_kind_id_before_payload_witness :
    lookupField regionMeshKind "KindId" = some (FieldValue.u8 3) ∧
    Node.default.visit_read regionMeshKind = .ok meshReadResult ∧
    meshReadResult.kind.id = 3 :=
  ⟨rfl, rfl,
    node_visit_kind_id_before_payload.2 Node.default meshReadResult
      regionMeshKind 3 rfl rfl⟩

/-- C8 counterexample: when the center cube (tested first) and the pos_x cone
(tested second) are hit at the same entry parameter 1, the loop selects the
center, whose entry parameter is not strictly smaller than that of the
later-tested pos_x cone — refuting the claim that the selected node's entry
parameter is strictly smaller than that of every later-tested node. -/
theorem closest_hit_claim_counterexample :
    gizmoExample.queryOrder.get ⟨0, by decide⟩ = gizmoExample.center ∧
    gizmoExample.queryOrder.get ⟨1, by decide⟩ = gizmoExample.pos_x ∧
    hitTie gizmoExample.center = some ⟨1, 2⟩ ∧
    hitTie gizmoExample.pos_x = some ⟨1, 2⟩ ∧
    (closestScan hitTie gizmoExample.queryOrder (Handle.none, f32MAX)).1
        = gizmoExample.center ∧
    ¬ (∀ (j : Nat) (hj : j < gizmoExample.queryOrder.length), 0 < j →
         ∀ s : IntersectionResult,
           hitTie (gizmoExample.queryOrder.get ⟨j, hj⟩) = some s →
             (1 : ℚ) < s.min) := by
  refine ⟨by decide, by decide, by decide, by decide, by decide, ?_⟩
  intro hclaim
  exact absurd (hclaim 1 (by decide) (by decide) ⟨1, 2⟩ (by decide)) (by decide)

/-- C8 amended: whenever some tested node's bounding box is hit at an entry
parameter below the initial `f32::MAX` threshold, the hit-test loop of
`SceneGizmo::on_click` selects, among the seven gizmo nodes in the fixed
order center, pos_x, neg_x, pos_y, neg_y, pos_z, neg_z, a node whose
intersection exists and whose entry parameter is strictly smaller than that of
every earlier-tested node and not larger than that of every later-tested node;
hence when two nodes have the minimal entry parameter, the earlier one in
query order is selected. -/
theorem on_click_closest_hit_selection (g : SceneGizmo)
    (hit : Handle → Option IntersectionResult)
    (hex : ∃ (i : Nat) (hi : i < g.queryOrder.length) (t : IntersectionResult),
        hit (g.queryOrder.get ⟨i, hi⟩) = some t ∧ t.min < f32MAX) :
    ∃ (i : Nat) (hi : i < g.queryOrder.length) (t : IntersectionResult),
      hit (g.queryOrder.get ⟨i, hi⟩) = some t ∧
      (closestScan hit g.queryOrder (Handle.none, f32MAX)).1
          = g.queryOrder.get ⟨i, hi⟩ ∧
      (∀ (e : Nat) (he : e < g.queryOrder.length), e < i →
         ∀ s : IntersectionResult, hit (g.queryOrder.get ⟨e, he⟩) = some s →
           t.min < s.min) ∧
      (∀ (j : Nat) (hj : j < g.queryOrder.length), i < j →
         ∀ s : IntersectionResult, hit (g.queryOrder.get ⟨j, hj⟩) = some s →
           t.min ≤ s.min) := by
  rcases closestScan_spec hit g.queryOrder Handle.none f32MAX with
    ⟨heq, hall⟩ | ⟨i, hi, t, ht, heq, hlt, hearly, hlate⟩
  · rcases hex with ⟨i, hi, t, ht, htmax⟩
    exact absurd (hall i hi t ht) (not_le.mpr htmax)
  · exact ⟨i, hi, t, ht, by rw [heq], hearly, hlate⟩

/-- Witness for the amended C8: a hit on the pos_y cone alone selects it. -/
theorem on_click_closest_hit_selection_witness :
    (∃ (i : Nat) (hi : i < gizmoExample.queryOrder.length)
        (t : IntersectionResult),
        hitPosY (gizmoExample.queryOrder.get ⟨i, hi⟩) = some t ∧
        t.min < f32MAX) ∧
    (∃ (i : Nat) (hi : i < gizmoExample.queryOrder.length)
        (t : IntersectionResult),
      hitPosY (gizmoExample.queryOrder.get ⟨i, hi⟩) = some t ∧
      (closestScan hitPosY gizmoExample.queryOrder (Handle.none, f32MAX)).1
          = gizmoExample.queryOrder.get ⟨i, hi⟩ ∧
      (∀ (e : Nat) (he : e < gizmoExample.queryOrder.length), e < i →
         ∀ s : IntersectionResult,
           hitPosY (gizmoExample.queryOrder.get ⟨e, he⟩) = some s →
             t.min < s.min) ∧
      (∀ (j : Nat) (hj : j < gizmoExample.queryOrder.length), i < j →
         ∀ s : IntersectionResult,
           hitPosY (gizmoExample.queryOrder.get ⟨j, hj⟩) = some s →
             t.min ≤ s.min)) :=
  ⟨⟨3, by decide, ⟨5, 6⟩, by decide, by decide⟩,
    on_click_closest_hit_selection gizmoExample hitPosY
      ⟨3, by decide, ⟨5, 6⟩, by decide, by decide⟩⟩

/-- C10: with the seven gizmo handles pairwise distinct and none of them the
none-sentinel (as the pool guarantees), `on_click` returns a camera rotation
exactly when the loop's closest node is one of the six axis cones; a closest
hit on the center cube gives `None`, and so does a ray that hits no tested
node's bounding box, even though the center (first element of the query order)
participates in hit testing. -/
theorem on_click_axis_cones_only (g : SceneGizmo)
    (hit : Handle → Option IntersectionResult)
    (hnodup : g.queryOrder.Nodup)
    (hnone : Handle.none ∉ g.queryOrder) :
    g.center ∈ g.queryOrder ∧
    ((g.on_click hit).isSome ↔
      ((closestScan hit g.queryOrder (Handle.none, f32MAX)).1 = g.pos_x ∨
       (closestScan hit g.queryOrder (Handle.none, f32MAX)).1 = g.neg_x ∨
       (closestScan hit g.queryOrder (Handle.none, f32MAX)).1 = g.pos_y ∨
       (closestScan hit g.queryOrder (Handle.none, f32MAX)).1 = g.neg_y ∨
       (closestScan hit g.queryOrder (Handle.none, f32MAX)).1 = g.pos_z ∨
       (closestScan hit g.queryOrder (Handle.none, f32MAX)).1 = g.neg_z)) ∧
    ((closestScan hit g.queryOrder (Handle.none, f32MAX)).1 = g.center →
       g.on_click hit = Option.none) ∧
    ((∀ n ∈ g.queryOrder, hit n = Option.none) →
       g.on_click hit = Option.none) := by
  simp only [SceneGizmo.queryOrder, List.nodup_cons, List.mem_cons,
    List.not_mem_nil, or_false, not_or, List.nodup_nil, and_true] at hnodup hnone
  obtain ⟨⟨hc1, hc2, hc3, hc4, hc5, hc6⟩, ⟨hx1, hx2, hx3, hx4, hx5⟩,
    ⟨hy1, hy2, hy3, hy4⟩, ⟨hy5, hy6, hy7⟩, ⟨hz1, hz2⟩, hz3, -⟩ := hnodup
  obtain ⟨hn1, hn2, hn3, hn4, hn5, hn6, hn7⟩ := hnone
  have h4 : (∀ n ∈ g.queryOrder, hit n = Option.none) →
      g.on_click hit = Option.none := by
    intro hall
    have hc0 : (closestScan hit g.queryOrder (Handle.none, f32MAX)).1
        = Handle.none := by
      rw [closestScan_all_none hit g.queryOrder (Handle.none, f32MAX) hall]
    simp [SceneGizmo.on_click, hc0, hn2, hn3, hn4, hn5, hn6, hn7]
  refine ⟨by simp [SceneGizmo.queryOrder], ?_, ?_, h4⟩
  · rcases closestScan_fst_mem hit g.queryOrder (Handle.none, f32MAX) with
      hc | hc
    · have hc0 : (closestScan hit g.queryOrder (Handle.none, f32MAX)).1
          = Handle.none := hc
      simp [SceneGizmo.on_click, hc0, hn1, hn2, hn3, hn4, hn5, hn6, hn7]
    · simp only [SceneGizmo.queryOrder, List.mem_cons, List.not_mem_nil,
        or_false] at hc
      rcases hc with hc | hc | hc | hc | hc | hc | hc
      · simp [SceneGizmo.on_click, SceneGizmo.queryOrder, hc,
          hc1, hc2, hc3, hc4, hc5, hc6]
      · simp [SceneGizmo.on_click, SceneGizmo.queryOrder, hc, hx1]
      · simp [SceneGizmo.on_click, SceneGizmo.queryOrder, hc]
      · simp [SceneGizmo.on_click, SceneGizmo.queryOrder, hc,
          Ne.symm hy1, Ne.symm hx2, hy5]
      · simp [SceneGizmo.on_click, SceneGizmo.queryOrder, hc,
          Ne.symm hy2, Ne.symm hx3]
      · simp [SceneGizmo.on_click, SceneGizmo.queryOrder, hc,
          Ne.symm hy3, Ne.symm hx4, Ne.symm hz1, Ne.symm hy6, hz3]
      · simp [SceneGizmo.on_click, SceneGizmo.queryOrder, hc,
          Ne.symm hy4, Ne.symm hx5, Ne.symm hz2, Ne.symm hy7]
  · intro hcen
    simp [SceneGizmo.on_click, hcen, hc1, hc2, hc3, hc4, hc5, hc6]

/-- Witness for C10 on the concrete gizmo with a hit on the pos_y cone. -/
theorem on_click_axis_cones_only_witness :
    gizmoExample.queryOrder.Nodup ∧
    Handle.none ∉ gizmoExample.queryOrder ∧
    (gizmoExample.center ∈ gizmoExample.queryOrder ∧
     ((gizmoExample.on_click hitPosY).isSome ↔
       ((closestScan hitPosY gizmoExample.queryOrder (Handle.none, f32MAX)).1
          = gizmoExample.pos_x ∨
        (closestScan hitPosY gizmoExample.queryOrder (Handle.none, f32MAX)).1
          = gizmoExample.neg_x ∨
        (closestScan hitPosY gizmoExample.queryOrder (Handle.none, f32MAX)).1
          = gizmoExample.pos_y ∨
        (closestScan hitPosY gizmoExample.queryOrder (Handle.none, f32MAX)).1
          = gizmoExample.neg_y ∨
        (closestScan hitPosY gizmoExample.queryOrder (Handle.none, f32MAX)).1
          = gizmoExample.pos_z ∨
        (closestScan hitPosY gizmoExample.queryOrder (Handle.none, f32MAX)).1
          = gizmoExample.neg_z)) ∧
     ((closestScan hitPosY gizmoExample.queryOrder (Handle.none, f32MAX)).1
          = gizmoExample.center →
        gizmoExample.on_click hitPosY = Option.none) ∧
     ((∀ n ∈ gizmoExample.queryOrder, hitPosY n = Option.none) →
        gizmoExample.on_click hitPosY = Option.none)) :=
  ⟨by decide, by decide,
    on_click_axis_cones_only gizmoExample hitPosY (by decide) (by decide)⟩

end Fyrox
